import Mathlib

/-!
Verification of the satellite-image fetch-and-cache loop
(`src/data_fetcher.py` of repository `real_estate_multimodal`).

The program is a sequential batch loop: for each record (id, lat, long) of a
tabular dataset it derives a path `{IMAGE_DIR}/{id}.png`, skips the record if
the file exists, otherwise performs an HTTP GET and either writes the response
body (status 200) or counts a failure (any other status, or a transport
exception), sleeping a fixed delay after each processed (non-skipped) record.

The shallow embedding below models:
  - the filesystem as an association list from path to bytes;
  - the HTTP transport and the possibility of a write exception as an
    environment of per-record oracles (`Env`);
  - the loop as structural recursion over the list of records, threading an
    explicit `LoopState` (counters, filesystem, network-call log, sleep
    count, emitted diagnostic lines);
  - the whole `fetch_satellite_images` routine, including directory creation,
    the required-column check and its error message, as a function producing
    a `RunResult`;
  - the module-level API-key check as `startup` / `program`.
-/

namespace DataFetcher

/-- Bytes of an HTTP response body or an image file. -/
abbrev Bytes := List Nat

/-- The filesystem fragment the program touches: an association list from
path to file contents; the head entry for a path is its current content. -/
abbrev FileSystem := List (String × Bytes)

/-- Look up the current content of a path (`Path.exists` / reading a file). -/
def fsLookup : FileSystem → String → Option Bytes
  | [], _ => none
  | (q, b) :: rest, p => if q = p then some b else fsLookup rest p

/-- `open(filepath, "wb"); f.write(image_bytes)`: create or overwrite the
file at `p` with content `b`. -/
def fsWrite (fs : FileSystem) (p : String) (b : Bytes) : FileSystem :=
  (p, b) :: fs

/-- One row of the input dataset: `row["id"]`, `row["lat"]`, `row["long"]`.
The id and the coordinates only ever flow into strings (a path, a URL), so
they are modelled by their string rendering. -/
structure Record where
  id : String
  lat : String
  long : String
deriving DecidableEq, Repr

/-- The input dataset: its column names (`df.columns`) and its rows. -/
structure Dataset where
  columns : List String
  rows : List Record
deriving DecidableEq, Repr

/-- Outcome of `requests.get(url, timeout=10)` for one record: either a
response with a status code and body, or a raised transport exception with
a message. -/
inductive HttpResult where
  | response (status : Nat) (body : Bytes)
  | exn (msg : String)
deriving DecidableEq, Repr

/-- Whether the result is a successful HTTP 200 response. -/
def HttpResult.isOk : HttpResult → Bool
  | .response 200 _ => true
  | _ => false

/-- The external world as seen by one run: the outcome of the HTTP GET for
each record, and whether `save_image` raises for that record (`some msg` =
the write raises an exception with message `msg` before creating the file,
`none` = the write succeeds). -/
structure Env where
  http : Record → HttpResult
  writeExn : Record → Option String

/-- `SLEEP_TIME = 0.15`, in hundredths. -/
def SLEEP_TIME_HUNDREDTHS : Nat := 15

/-- `ZOOM = 19`. -/
def ZOOM : Nat := 19

/-- `IMAGE_SIZE = "256x256"`. -/
def IMAGE_SIZE : String := "256x256"

/-- `MAP_TYPE = "satellite"`. -/
def MAP_TYPE : String := "satellite"

/-- `SCALE = 1`. -/
def SCALE : Nat := 1

/-- `build_image_url(lat, lon)`: the Google Static Maps request URL. -/
def build_image_url (apiKey lat lon : String) : String :=
  "https://maps.googleapis.com/maps/api/staticmap?center=" ++ lat ++ "," ++ lon
    ++ "&zoom=" ++ toString ZOOM
    ++ "&size=" ++ IMAGE_SIZE
    ++ "&maptype=" ++ MAP_TYPE
    ++ "&scale=" ++ toString SCALE
    ++ "&key=" ++ apiKey

/-- `Path(IMAGE_DIR) / f"{property_id}.png"`. -/
def imagePath (imageDir : String) (r : Record) : String :=
  imageDir ++ "/" ++ r.id ++ ".png"

/-- The diagnostic line `f"[FAILED] ID {property_id} | HTTP {status_code}"`. -/
def diagFailed (id : String) (status : Nat) : String :=
  "[FAILED] ID " ++ id ++ " | HTTP " ++ toString status

/-- The diagnostic line `f"[ERROR] ID {property_id} | {str(e)}"`. -/
def diagError (id : String) (msg : String) : String :=
  "[ERROR] ID " ++ id ++ " | " ++ msg

/-- State threaded through the per-record loop: the filesystem, the three
counters, the log of records for which a network call was issued, the number
of sleeps performed (each of `SLEEP_TIME`), and the diagnostic lines printed. -/
structure LoopState where
  fs : FileSystem
  downloaded : Nat
  skipped : Nat
  failed : Nat
  netCalls : List Record
  sleeps : Nat
  output : List String
deriving DecidableEq, Repr

/-- One iteration of the loop body of `fetch_satellite_images` for row `r`:
skip when the file exists; otherwise issue the GET and handle the outcome
(200 → `save_image` and count `downloaded`, unless the write raises, which
the `except` clause counts as `failed`; other status → count `failed` and
print `[FAILED]`; transport exception → count `failed` and print `[ERROR]`),
then sleep. -/
def processRecord (env : Env) (imageDir : String) (s : LoopState) (r : Record) :
    LoopState :=
  let path := imagePath imageDir r
  if (fsLookup s.fs path).isSome then
    { s with skipped := s.skipped + 1 }
  else
    let s1 := { s with netCalls := s.netCalls ++ [r] }
    let s2 :=
      match env.http r with
      | .response status body =>
        if status = 200 then
          match env.writeExn r with
          | none =>
            { s1 with
              fs := fsWrite s1.fs path body
              downloaded := s1.downloaded + 1 }
          | some msg =>
            { s1 with
              failed := s1.failed + 1
              output := s1.output ++ [diagError r.id msg] }
        else
          { s1 with
            failed := s1.failed + 1
            output := s1.output ++ [diagFailed r.id status] }
      | .exn msg =>
        { s1 with
          failed := s1.failed + 1
          output := s1.output ++ [diagError r.id msg] }
    { s2 with sleeps := s2.sleeps + 1 }

/-- The `for _, row in df.iterrows()` loop: fold `processRecord` over the rows. -/
def runLoop (env : Env) (imageDir : String) : LoopState → List Record → LoopState
  | s, [] => s
  | s, r :: rs => runLoop env imageDir (processRecord env imageDir s r) rs

/-- `required_cols = {"id", "lat", "long"}`. -/
def required_cols : List String := ["id", "lat", "long"]

/-- The message of the `ValueError` raised when required columns are missing:
`f"Dataset must contain columns: {required_cols}"` (Python renders the set
literal; one fixed element order is chosen here). -/
def missingColsMsg : String :=
  "Dataset must contain columns: \x7b\x27id\x27, \x27lat\x27, \x27long\x27\x7d"

/-- Result of one run of `fetch_satellite_images`: whether the destination
directory was created, the raised error if any, and the counters and
side effects of the loop. -/
structure RunResult where
  dirCreated : Bool
  error : Option String
  total : Nat
  downloaded : Nat
  skipped : Nat
  failed : Nat
  fs : FileSystem
  netCalls : List Record
  sleeps : Nat
  output : List String
deriving DecidableEq, Repr

/-- The loop state at the top of the loop: the pre-existing filesystem,
all counters at zero, nothing logged yet. -/
def initState (fs0 : FileSystem) : LoopState :=
  { fs := fs0, downloaded := 0, skipped := 0, failed := 0, netCalls := [],
    sleeps := 0, output := [] }

/-- `fetch_satellite_images()`: create the image directory, load the dataset,
validate the required columns (raising `ValueError` with `missingColsMsg` when
they are not a subset of the dataset columns), then run the loop over all
rows starting from the pre-existing filesystem `fs0`. -/
def fetch_satellite_images (env : Env) (imageDir : String) (ds : Dataset)
    (fs0 : FileSystem) : RunResult :=
  if required_cols.all (fun c => ds.columns.contains c) then
    let fin := runLoop env imageDir (initState fs0) ds.rows
    { dirCreated := true
      error := none
      total := ds.rows.length
      downloaded := fin.downloaded
      skipped := fin.skipped
      failed := fin.failed
      fs := fin.fs
      netCalls := fin.netCalls
      sleeps := fin.sleeps
      output := fin.output }
  else
    { dirCreated := true
      error := some missingColsMsg
      total := 0
      downloaded := 0
      skipped := 0
      failed := 0
      fs := fs0
      netCalls := []
      sleeps := 0
      output := [] }

/-- Name of the environment variable holding the API key. -/
def apiKeyName : String := "GOOGLE_MAPS_API_KEY"

/-- The message of the `ValueError` raised at import time when the key is
absent. -/
def apiKeyMissingMsg : String :=
  "GOOGLE_MAPS_API_KEY not found in environment variables."

/-- Look up a process environment variable. -/
def lookupEnv : List (String × String) → String → Option String
  | [], _ => none
  | (k, v) :: rest, n => if k = n then some v else lookupEnv rest n

/-- The module-level startup check:
`API_KEY = os.getenv("GOOGLE_MAPS_API_KEY"); if API_KEY is None: raise`. -/
def startup (envVars : List (String × String)) : Except String String :=
  match lookupEnv envVars apiKeyName with
  | none => .error apiKeyMissingMsg
  | some k => .ok k

/-- The whole program: the startup key check runs before anything else
(import time precedes the call to `fetch_satellite_images`); if it raises,
no directory is created, no dataset is read and no record is processed. -/
def program (envVars : List (String × String)) (env : Env) (imageDir : String)
    (ds : Dataset) (fs0 : FileSystem) : Except String RunResult :=
  match startup envVars with
  | .error e => .error e
  | .ok _ => .ok (fetch_satellite_images env imageDir ds fs0)

/-- `pat` is a leading segment of `l`. -/
def leadsList : List Char → List Char → Bool
  | [], _ => true
  | _ :: _, [] => false
  | c :: cs, d :: rest => c = d && leadsList cs rest

/-- `pat` occurs contiguously somewhere in `l`. -/
def occursIn (pat : List Char) : List Char → Bool
  | [] => leadsList pat []
  | d :: rest => leadsList pat (d :: rest) || occursIn pat rest

/-- `s` contains `pat` as a substring. -/
def containsStr (s pat : String) : Bool :=
  occursIn pat.data s.data

/-! ### Lemmas about one loop iteration -/

theorem fsLookup_fsWrite (fs : FileSystem) (p q : String) (b : Bytes) :
    fsLookup (fsWrite fs p b) q = if p = q then some b else fsLookup fs q :=
  rfl

theorem processRecord_skip (env : Env) (d : String) (s : LoopState) (r : Record)
    (h : (fsLookup s.fs (imagePath d r)).isSome) :
    processRecord env d s r = { s with skipped := s.skipped + 1 } := by
  unfold processRecord
  simp [h]

theorem processRecord_counts (env : Env) (d : String) (s : LoopState) (r : Record) :
    (processRecord env d s r).downloaded + (processRecord env d s r).skipped
      + (processRecord env d s r).failed
      = s.downloaded + s.skipped + s.failed + 1 := by
  unfold processRecord
  by_cases h : (fsLookup s.fs (imagePath d r)).isSome
  · simp [h]
    omega
  · rcases hh : env.http r with ⟨status, body⟩ | msg
    · by_cases hs : status = 200
      · rcases hw : env.writeExn r with _ | msg
        · simp [h, hh, hs, hw]
          omega
        · simp [h, hh, hs, hw]
          omega
      · simp [h, hh, hs]
        omega
    · simp [h, hh]
      omega

theorem processRecord_sleeps (env : Env) (d : String) (s : LoopState) (r : Record) :
    (processRecord env d s r).sleeps
      = s.sleeps + (if (fsLookup s.fs (imagePath d r)).isSome then 0 else 1) := by
  unfold processRecord
  by_cases h : (fsLookup s.fs (imagePath d r)).isSome
  · simp [h]
  · rcases hh : env.http r with ⟨status, body⟩ | msg
    · by_cases hs : status = 200
      · rcases hw : env.writeExn r with _ | msg
        · simp [h, hh, hs, hw]
        · simp [h, hh, hs, hw]
      · simp [h, hh, hs]
    · simp [h, hh]

theorem processRecord_dlf (env : Env) (d : String) (s : LoopState) (r : Record) :
    (processRecord env d s r).downloaded + (processRecord env d s r).failed
      = s.downloaded + s.failed
        + (if (fsLookup s.fs (imagePath d r)).isSome then 0 else 1) := by
  unfold processRecord
  by_cases h : (fsLookup s.fs (imagePath d r)).isSome
  · simp [h]
  · rcases hh : env.http r with ⟨status, body⟩ | msg
    · by_cases hs : status = 200
      · rcases hw : env.writeExn r with _ | msg
        · simp [h, hh, hs, hw]
          omega
        · simp [h, hh, hs, hw]
          omega
      · simp [h, hh, hs]
        omega
    · simp [h, hh]
      omega

theorem processRecord_fs_mono (env : Env) (d : String) (s : LoopState) (r : Record)
    (p : String) (b : Bytes) (h : fsLookup s.fs p = some b) :
    fsLookup (processRecord env d s r).fs p = some b := by
  unfold processRecord
  by_cases hex : (fsLookup s.fs (imagePath d r)).isSome
  · simpa [hex] using h
  · rcases hh : env.http r with ⟨status, body⟩ | msg
    · by_cases hs : status = 200
      · subst hs
        rcases hw : env.writeExn r with _ | msg
        · by_cases hp : imagePath d r = p
          · subst hp
            simp [h] at hex
          · simp [hex, hh, hw, fsLookup_fsWrite, hp, h]
        · simpa [hex, hh, hw] using h
      · simpa [hex, hh, hs] using h
    · simpa [hex, hh] using h

theorem processRecord_netCalls (env : Env) (d : String) (s : LoopState) (r : Record) :
    (processRecord env d s r).netCalls
      = if (fsLookup s.fs (imagePath d r)).isSome then s.netCalls
        else s.netCalls ++ [r] := by
  unfold processRecord
  by_cases h : (fsLookup s.fs (imagePath d r)).isSome
  · simp [h]
  · rcases hh : env.http r with ⟨status, body⟩ | msg
    · by_cases hs : status = 200
      · rcases hw : env.writeExn r with _ | msg
        · simp [h, hh, hs, hw]
        · simp [h, hh, hs, hw]
      · simp [h, hh, hs]
    · simp [h, hh]

theorem processRecord_fs_of_fail (env : Env) (d : String) (s : LoopState)
    (r : Record) (h : (env.http r).isOk = false) :
    (processRecord env d s r).fs = s.fs := by
  unfold processRecord
  by_cases hex : (fsLookup s.fs (imagePath d r)).isSome
  · simp [hex]
  · rcases hh : env.http r with ⟨status, body⟩ | msg
    · by_cases hs : status = 200
      · subst hs
        rw [hh] at h
        simp [HttpResult.isOk] at h
      · simp [hex, hh, hs]
    · simp [hex, hh]

theorem processRecord_ok (env : Env) (d : String) (s : LoopState) (r : Record)
    (body : Bytes) (hne : fsLookup s.fs (imagePath d r) = none)
    (hh : env.http r = .response 200 body) (hw : env.writeExn r = none) :
    processRecord env d s r =
      { s with
        fs := fsWrite s.fs (imagePath d r) body
        downloaded := s.downloaded + 1
        netCalls := s.netCalls ++ [r]
        sleeps := s.sleeps + 1 } := by
  unfold processRecord
  simp [hne, hh, hw]

theorem processRecord_httpFail (env : Env) (d : String) (s : LoopState)
    (r : Record) (status : Nat) (body : Bytes)
    (hne : fsLookup s.fs (imagePath d r) = none)
    (hh : env.http r = .response status body) (hs : status ≠ 200) :
    processRecord env d s r =
      { s with
        failed := s.failed + 1
        netCalls := s.netCalls ++ [r]
        sleeps := s.sleeps + 1
        output := s.output ++ [diagFailed r.id status] } := by
  unfold processRecord
  simp [hne, hh, hs]

theorem processRecord_exn (env : Env) (d : String) (s : LoopState)
    (r : Record) (msg : String)
    (hne : fsLookup s.fs (imagePath d r) = none)
    (hh : env.http r = .exn msg) :
    processRecord env d s r =
      { s with
        failed := s.failed + 1
        netCalls := s.netCalls ++ [r]
        sleeps := s.sleeps + 1
        output := s.output ++ [diagError r.id msg] } := by
  unfold processRecord
  simp [hne, hh]

theorem processRecord_writeFail (env : Env) (d : String) (s : LoopState)
    (r : Record) (body : Bytes) (msg : String)
    (hne : fsLookup s.fs (imagePath d r) = none)
    (hh : env.http r = .response 200 body) (hw : env.writeExn r = some msg) :
    processRecord env d s r =
      { s with
        failed := s.failed + 1
        netCalls := s.netCalls ++ [r]
        sleeps := s.sleeps + 1
        output := s.output ++ [diagError r.id msg] } := by
  unfold processRecord
  simp [hne, hh, hw]

/-! ### Lemmas about the whole loop -/

theorem runLoop_counts (env : Env) (d : String) (rs : List Record) (s : LoopState) :
    (runLoop env d s rs).downloaded + (runLoop env d s rs).skipped
      + (runLoop env d s rs).failed
      = s.downloaded + s.skipped + s.failed + rs.length := by
  induction rs generalizing s with
  | nil => simp [runLoop]
  | cons r rs ih =>
    simp only [runLoop]
    rw [ih]
    have h := processRecord_counts env d s r
    rw [List.length_cons]
    omega

theorem runLoop_sleeps (env : Env) (d : String) (rs : List Record) (s : LoopState)
    (h : s.sleeps = s.downloaded + s.failed) :
    (runLoop env d s rs).sleeps
      = (runLoop env d s rs).downloaded + (runLoop env d s rs).failed := by
  induction rs generalizing s with
  | nil => simpa [runLoop] using h
  | cons r rs ih =>
    simp only [runLoop]
    apply ih
    have h1 := processRecord_sleeps env d s r
    have h2 := processRecord_dlf env d s r
    by_cases hex : (fsLookup s.fs (imagePath d r)).isSome
    · simp [hex] at h1 h2
      omega
    · simp [hex] at h1 h2
      omega

theorem runLoop_fs_mono (env : Env) (d : String) (rs : List Record)
    (s : LoopState) (p : String) (b : Bytes) (h : fsLookup s.fs p = some b) :
    fsLookup (runLoop env d s rs).fs p = some b := by
  induction rs generalizing s with
  | nil => simpa [runLoop] using h
  | cons r rs ih =>
    simp only [runLoop]
    exact ih _ (processRecord_fs_mono env d s r p b h)

theorem runLoop_no_call (env : Env) (d : String) (rs : List Record)
    (s : LoopState) (p : String) (b : Bytes)
    (hfs : fsLookup s.fs p = some b)
    (hnc : s.netCalls.all (fun c => imagePath d c != p) = true) :
    (runLoop env d s rs).netCalls.all (fun c => imagePath d c != p) = true := by
  induction rs generalizing s with
  | nil => simpa [runLoop] using hnc
  | cons r rs ih =>
    simp only [runLoop]
    apply ih
    · exact processRecord_fs_mono env d s r p b hfs
    · rw [processRecord_netCalls]
      by_cases hex : (fsLookup s.fs (imagePath d r)).isSome
      · simpa [hex] using hnc
      · have hp : imagePath d r ≠ p := by
          intro he
          rw [he, hfs] at hex
          simp at hex
        simp [hex, hnc, hp]

theorem runLoop_fs_of_fail (env : Env) (d : String) (rs : List Record)
    (s : LoopState) (h : rs.all (fun r => !(env.http r).isOk) = true) :
    (runLoop env d s rs).fs = s.fs := by
  induction rs generalizing s with
  | nil => simp [runLoop]
  | cons r rs ih =>
    simp only [List.all_cons, Bool.and_eq_true] at h
    simp only [runLoop]
    rw [ih _ h.2]
    exact processRecord_fs_of_fail env d s r (by simpa using h.1)

theorem fetch_eq_run (env : Env) (d : String) (ds : Dataset) (fs0 : FileSystem)
    (h : required_cols.all (fun c => ds.columns.contains c) = true) :
    fetch_satellite_images env d ds fs0 =
      { dirCreated := true
        error := none
        total := ds.rows.length
        downloaded := (runLoop env d (initState fs0) ds.rows).downloaded
        skipped := (runLoop env d (initState fs0) ds.rows).skipped
        failed := (runLoop env d (initState fs0) ds.rows).failed
        fs := (runLoop env d (initState fs0) ds.rows).fs
        netCalls := (runLoop env d (initState fs0) ds.rows).netCalls
        sleeps := (runLoop env d (initState fs0) ds.rows).sleeps
        output := (runLoop env d (initState fs0) ds.rows).output } := by
  unfold fetch_satellite_images
  rw [h]
  rfl

theorem fetch_eq_err (env : Env) (d : String) (ds : Dataset) (fs0 : FileSystem)
    (h : required_cols.all (fun c => ds.columns.contains c) = false) :
    fetch_satellite_images env d ds fs0 =
      { dirCreated := true
        error := some missingColsMsg
        total := 0
        downloaded := 0
        skipped := 0
        failed := 0
        fs := fs0
        netCalls := []
        sleeps := 0
        output := [] } := by
  unfold fetch_satellite_images
  rw [h]
  rfl

/-! ### Concrete inputs used by the witnesses -/

/-- An environment in which every request succeeds with body `[7, 7]`. -/
def envOk : Env where
  http := fun _ => .response 200 [7, 7]
  writeExn := fun _ => none

/-- An environment in which every request returns HTTP 404. -/
def env404 : Env where
  http := fun _ => .response 404 []
  writeExn := fun _ => none

/-- An environment in which every request raises a transport exception. -/
def envExn : Env where
  http := fun _ => .exn "connection timed out"
  writeExn := fun _ => none

/-- An environment in which requests succeed but every file write raises. -/
def envWriteFail : Env where
  http := fun _ => .response 200 [1]
  writeExn := fun _ => some "disk full"

/-- A sample record. -/
def recA : Record := { id := "A", lat := "1.0", long := "2.0" }

/-- Another sample record. -/
def recB : Record := { id := "B", lat := "3.0", long := "4.0" }

/-- A dataset with all required columns and two rows. -/
def dsGood : Dataset := { columns := ["id", "lat", "long"], rows := [recA, recB] }

/-- A dataset missing the `lat` column. -/
def dsBad : Dataset := { columns := ["id", "long"], rows := [recA] }

/-- A pre-existing filesystem already holding `img/A.png`. -/
def fsA : FileSystem := [("img/A.png", [9])]

/-- The empty initial loop state. -/
def st0 : LoopState :=
  { fs := [], downloaded := 0, skipped := 0, failed := 0, netCalls := [],
    sleeps := 0, output := [] }

/-- The initial loop state over the filesystem `fsA`. -/
def stA : LoopState := { st0 with fs := fsA }

/-! ### The claims -/

/-- C1: after `fetch_satellite_images` processes every record of the input
dataset (the required columns being present), the counters satisfy
`downloaded + skipped + failed = total`, for any input set, pre-existing
filesystem and pattern of per-record outcomes, and `total` is the number of
rows: every loop iteration increments exactly one of the three counters. -/
theorem C1_counters_sum (env : Env) (d : String) (ds : Dataset)
    (fs0 : FileSystem)
    (hcols : required_cols.all (fun c => ds.columns.contains c) = true) :
    (fetch_satellite_images env d ds fs0).total = ds.rows.length ∧
    (fetch_satellite_images env d ds fs0).downloaded
      + (fetch_satellite_images env d ds fs0).skipped
      + (fetch_satellite_images env d ds fs0).failed
      = (fetch_satellite_images env d ds fs0).total := by
  rw [fetch_eq_run env d ds fs0 hcols]
  refine ⟨rfl, ?_⟩
  have h := runLoop_counts env d ds.rows (initState fs0)
  simpa [initState] using h

/-- Witness for C1 at a concrete dataset and environment. -/
theorem C1_counters_sum_witness :
    (fetch_satellite_images envOk "img" dsGood []).total = dsGood.rows.length ∧
    (fetch_satellite_images envOk "img" dsGood []).downloaded
      + (fetch_satellite_images envOk "img" dsGood []).skipped
      + (fetch_satellite_images envOk "img" dsGood []).failed
      = (fetch_satellite_images envOk "img" dsGood []).total :=
  C1_counters_sum envOk "img" dsGood [] (by decide)

/-- C2: a record whose output file already exists is skipped: the iteration
only increments `skipped` (no network call, no other change); and across a
whole run, a path present in the initial filesystem keeps its exact content
and no network call is made for any record mapping to that path. -/
theorem C2_skip_existing (env : Env) (d : String) (ds : Dataset)
    (fs0 : FileSystem) (s : LoopState) (r r2 : Record) (b : Bytes)
    (hs : (fsLookup s.fs (imagePath d r)).isSome = true)
    (h0 : fsLookup fs0 (imagePath d r2) = some b) :
    processRecord env d s r = { s with skipped := s.skipped + 1 } ∧
    fsLookup (fetch_satellite_images env d ds fs0).fs (imagePath d r2)
      = fsLookup fs0 (imagePath d r2) ∧
    (fetch_satellite_images env d ds fs0).netCalls.all
      (fun c => imagePath d c != imagePath d r2) = true := by
  refine ⟨processRecord_skip env d s r hs, ?_, ?_⟩
  · cases hcols : required_cols.all (fun c => ds.columns.contains c) with
    | false => rw [fetch_eq_err env d ds fs0 hcols]
    | true =>
      rw [fetch_eq_run env d ds fs0 hcols, h0]
      exact runLoop_fs_mono env d ds.rows (initState fs0) (imagePath d r2) b h0
  · cases hcols : required_cols.all (fun c => ds.columns.contains c) with
    | false =>
      rw [fetch_eq_err env d ds fs0 hcols]
      rfl
    | true =>
      rw [fetch_eq_run env d ds fs0 hcols]
      exact runLoop_no_call env d ds.rows (initState fs0) (imagePath d r2) b h0 rfl

/-- Witness for C2: `img/A.png` exists beforehand, so record A is skipped,
its file survives unchanged and no call targets its path. -/
theorem C2_skip_existing_witness :
    processRecord env404 "img" stA recA = { stA with skipped := stA.skipped + 1 } ∧
    fsLookup (fetch_satellite_images env404 "img" dsGood fsA).fs
        (imagePath "img" recA)
      = fsLookup fsA (imagePath "img" recA) ∧
    (fetch_satellite_images env404 "img" dsGood fsA).netCalls.all
      (fun c => imagePath "img" c != imagePath "img" recA) = true :=
  C2_skip_existing env404 "img" dsGood fsA stA recA recA [9]
    (by decide) (by decide)

/-- C3: for a record that is not skipped, an HTTP 200 response with body `B`
(and a non-raising write) creates `{image_dir}/{id}.png` containing exactly
`B` and increments `downloaded` by one, leaving `skipped` and `failed`
unchanged. -/
theorem C3_success_writes_body (env : Env) (d : String) (s : LoopState)
    (r : Record) (body : Bytes)
    (hne : fsLookup s.fs (imagePath d r) = none)
    (hh : env.http r = .response 200 body)
    (hw : env.writeExn r = none) :
    fsLookup (processRecord env d s r).fs (imagePath d r) = some body ∧
    (processRecord env d s r).downloaded = s.downloaded + 1 ∧
    (processRecord env d s r).skipped = s.skipped ∧
    (processRecord env d s r).failed = s.failed := by
  rw [processRecord_ok env d s r body hne hh hw]
  refine ⟨?_, rfl, rfl, rfl⟩
  simp [fsLookup_fsWrite]

/-- Witness for C3 at a concrete record and environment. -/
theorem C3_success_writes_body_witness :
    fsLookup (processRecord envOk "img" st0 recA).fs (imagePath "img" recA)
      = some [7, 7] ∧
    (processRecord envOk "img" st0 recA).downloaded = st0.downloaded + 1 ∧
    (processRecord envOk "img" st0 recA).skipped = st0.skipped ∧
    (processRecord envOk "img" st0 recA).failed = st0.failed :=
  C3_success_writes_body envOk "img" st0 recA [7, 7]
    (by decide) (by decide) (by decide)

/-- C4: for a record that is not skipped whose HTTP GET returns a status
other than 200, `failed` increments by exactly one, no file is written (the
filesystem is unchanged), the other counters are unchanged, and the emitted
diagnostic line names the record id and the status code. -/
theorem C4_http_error_counted (env : Env) (d : String) (s : LoopState)
    (r : Record) (status : Nat) (body : Bytes)
    (hne : fsLookup s.fs (imagePath d r) = none)
    (hh : env.http r = .response status body)
    (hs : status ≠ 200) :
    (processRecord env d s r).failed = s.failed + 1 ∧
    (processRecord env d s r).fs = s.fs ∧
    (processRecord env d s r).downloaded = s.downloaded ∧
    (processRecord env d s r).skipped = s.skipped ∧
    (processRecord env d s r).output
      = s.output ++ ["[FAILED] ID " ++ r.id ++ " | HTTP " ++ toString status] := by
  rw [processRecord_httpFail env d s r status body hne hh hs]
  exact ⟨rfl, rfl, rfl, rfl, rfl⟩

/-- Witness for C4 with a 404 response for record A. -/
theorem C4_http_error_counted_witness :
    (processRecord env404 "img" st0 recA).failed = st0.failed + 1 ∧
    (processRecord env404 "img" st0 recA).fs = st0.fs ∧
    (processRecord env404 "img" st0 recA).downloaded = st0.downloaded ∧
    (processRecord env404 "img" st0 recA).skipped = st0.skipped ∧
    (processRecord env404 "img" st0 recA).output
      = st0.output ++ ["[FAILED] ID " ++ recA.id ++ " | HTTP " ++ toString 404] :=
  C4_http_error_counted env404 "img" st0 recA 404 []
    (by decide) (by decide) (by decide)

/-- C5: when the dataset lacks a required column, the run raises the
`ValueError` whose message enumerates the required column names, and does so
before any record is processed: no network call, all counters zero, no
sleep, and the filesystem untouched. -/
theorem C5_missing_columns (env : Env) (d : String) (ds : Dataset)
    (fs0 : FileSystem)
    (h : required_cols.all (fun c => ds.columns.contains c) = false) :
    (fetch_satellite_images env d ds fs0).error = some missingColsMsg ∧
    required_cols.all (fun c => containsStr missingColsMsg c) = true ∧
    (fetch_satellite_images env d ds fs0).netCalls = [] ∧
    (fetch_satellite_images env d ds fs0).downloaded = 0 ∧
    (fetch_satellite_images env d ds fs0).skipped = 0 ∧
    (fetch_satellite_images env d ds fs0).failed = 0 ∧
    (fetch_satellite_images env d ds fs0).sleeps = 0 ∧
    (fetch_satellite_images env d ds fs0).fs = fs0 := by
  rw [fetch_eq_err env d ds fs0 h]
  refine ⟨rfl, by decide, rfl, rfl, rfl, rfl, rfl, rfl⟩

/-- Witness for C5 with a dataset missing the `lat` column. -/
theorem C5_missing_columns_witness :
    (fetch_satellite_images envOk "img" dsBad []).error = some missingColsMsg ∧
    required_cols.all (fun c => containsStr missingColsMsg c) = true ∧
    (fetch_satellite_images envOk "img" dsBad []).netCalls = [] ∧
    (fetch_satellite_images envOk "img" dsBad []).downloaded = 0 ∧
    (fetch_satellite_images envOk "img" dsBad []).skipped = 0 ∧
    (fetch_satellite_images envOk "img" dsBad []).failed = 0 ∧
    (fetch_satellite_images envOk "img" dsBad []).sleeps = 0 ∧
    (fetch_satellite_images envOk "img" dsBad []).fs = [] :=
  C5_missing_columns envOk "img" dsBad [] (by decide)

/-- C6: a failed request writes nothing: an iteration whose HTTP outcome is
not a 200 response (other status, or transport exception) leaves the
filesystem exactly as it was; and a whole run in which every record fails
leaves the filesystem identical to the initial one, so no file appears at
any `{image_dir}/{id}.png`. -/
theorem C6_failure_writes_nothing (env : Env) (d : String) (s : LoopState)
    (r : Record) (ds : Dataset) (fs0 : FileSystem)
    (hr : (env.http r).isOk = false)
    (hall : ds.rows.all (fun q => !(env.http q).isOk) = true) :
    (processRecord env d s r).fs = s.fs ∧
    (fetch_satellite_images env d ds fs0).fs = fs0 := by
  refine ⟨processRecord_fs_of_fail env d s r hr, ?_⟩
  cases hcols : required_cols.all (fun c => ds.columns.contains c) with
  | false => rw [fetch_eq_err env d ds fs0 hcols]
  | true =>
    rw [fetch_eq_run env d ds fs0 hcols]
    exact runLoop_fs_of_fail env d ds.rows (initState fs0) hall

/-- Witness for C6 with transport exceptions for every record. -/
theorem C6_failure_writes_nothing_witness :
    (processRecord envExn "img" st0 recA).fs = st0.fs ∧
    (fetch_satellite_images envExn "img" dsGood []).fs = [] :=
  C6_failure_writes_nothing envExn "img" st0 recA dsGood []
    (by decide) (by decide)

/-- C7: when the imagery-API key is absent from the process environment, the
program raises the descriptive startup error and nothing else happens: no
run result is produced, so no record is processed. -/
theorem C7_missing_api_key (envVars : List (String × String)) (env : Env)
    (d : String) (ds : Dataset) (fs0 : FileSystem)
    (h : lookupEnv envVars apiKeyName = none) :
    program envVars env d ds fs0 = .error apiKeyMissingMsg := by
  unfold program startup
  rw [h]

/-- Witness for C7 with an environment lacking the key. -/
theorem C7_missing_api_key_witness :
    program [("HOME", "/root")] envOk "img" dsGood [] = .error apiKeyMissingMsg :=
  C7_missing_api_key [("HOME", "/root")] envOk "img" dsGood [] (by decide)

/-- C8: the loop sleeps the fixed delay once after every processed record
(an iteration adds one sleep exactly when the record is not skipped), so at
the end of any run the number of sleeps equals `downloaded + failed` — every
downloaded or failed record slept, no skipped record did. -/
theorem C8_sleep_per_processed (env : Env) (d : String) (s : LoopState)
    (r : Record) (ds : Dataset) (fs0 : FileSystem) :
    (processRecord env d s r).sleeps
      = s.sleeps + (if (fsLookup s.fs (imagePath d r)).isSome then 0 else 1) ∧
    (fetch_satellite_images env d ds fs0).sleeps
      = (fetch_satellite_images env d ds fs0).downloaded
        + (fetch_satellite_images env d ds fs0).failed := by
  refine ⟨processRecord_sleeps env d s r, ?_⟩
  cases hcols : required_cols.all (fun c => ds.columns.contains c) with
  | false =>
    rw [fetch_eq_err env d ds fs0 hcols]
    rfl
  | true =>
    rw [fetch_eq_run env d ds fs0 hcols]
    exact runLoop_sleeps env d ds.rows (initState fs0) rfl

/-- C9: the destination directory is created even when the dataset is
missing required columns: the run that raises the column-validation error
still reports the directory as created. -/
theorem C9_mkdir_precedes_validation (env : Env) (d : String) (ds : Dataset)
    (fs0 : FileSystem)
    (h : required_cols.all (fun c => ds.columns.contains c) = false) :
    (fetch_satellite_images env d ds fs0).dirCreated = true ∧
    (fetch_satellite_images env d ds fs0).error = some missingColsMsg := by
  unfold fetch_satellite_images
  rw [h]
  exact ⟨rfl, rfl⟩

/-- Witness for C9 with a dataset missing the `lat` column. -/
theorem C9_mkdir_precedes_validation_witness :
    (fetch_satellite_images envOk "img" dsBad []).dirCreated = true ∧
    (fetch_satellite_images envOk "img" dsBad []).error = some missingColsMsg :=
  C9_mkdir_precedes_validation envOk "img" dsBad [] (by decide)

/-- C10: when the file write raises after an HTTP 200 response, the record
is counted as `failed`, not `downloaded`, and the `[ERROR]` diagnostic line
carries the record id and the exception message. -/
theorem C10_write_failure_counted_failed (env : Env) (d : String)
    (s : LoopState) (r : Record) (body : Bytes) (msg : String)
    (hne : fsLookup s.fs (imagePath d r) = none)
    (hh : env.http r = .response 200 body)
    (hw : env.writeExn r = some msg) :
    (processRecord env d s r).failed = s.failed + 1 ∧
    (processRecord env d s r).downloaded = s.downloaded ∧
    (processRecord env d s r).output
      = s.output ++ ["[ERROR] ID " ++ r.id ++ " | " ++ msg] := by
  rw [processRecord_writeFail env d s r body msg hne hh hw]
  exact ⟨rfl, rfl, rfl⟩

/-- Witness for C10 with a write that raises for record A. -/
theorem C10_write_failure_counted_failed_witness :
    (processRecord envWriteFail "img" st0 recA).failed = st0.failed + 1 ∧
    (processRecord envWriteFail "img" st0 recA).downloaded = st0.downloaded ∧
    (processRecord envWriteFail "img" st0 recA).output
      = st0.output ++ ["[ERROR] ID " ++ recA.id ++ " | " ++ "disk full"] :=
  C10_write_failure_counted_failed envWriteFail "img" st0 recA [1] "disk full"
    (by decide) (by decide) (by decide)

end DataFetcher
